import Mathlib

/-!
Shallow embedding of src/src/value_param.rs (autocxx value-parameter passing).

The source defines a trait ValueParam<T> with two implementations:
  * impl ValueParam<T> for &T (copy-source, requires T: CopyNew):
      StackStorage = T, needs_stack_space = true,
      populate_stack_space copy-constructs the referenced value into the slot,
      get_ptr returns std::ptr::null_mut().
  * impl ValueParam<T> for UniquePtr<T> (move-source):
      StackStorage = (), needs_stack_space = false,
      populate_stack_space is a no-op,
      get_ptr panics on a null pointer, else returns the stored address.
and a struct ValueParamHandler<T, VP> holding the param, an optional
MaybeUninit slot, and PhantomPinned, with new / get_ptr / Drop.

Modelling choices:
  * Raw pointers are natural-number addresses; 0 is the null pointer
    (std::ptr::null_mut()).
  * Memory is explicit: Mem T carries a fresh-address counter next, the live
    value (if any) at each address, and a per-address count of destructor runs
    (so that exactly-once destruction claims are expressible).
  * The handler's inline MaybeUninit slot is modelled as a freshly allocated
    address taken from next: in Rust the slot lives inside the (pinned)
    handler, so its address is distinct from every already-allocated object.
  * Panics (expect / unwrap) are modelled as Except.error carrying the
    panic message: the fatal, non-returning failure path.
  * Methods taking &mut self are state-passing: they return the possibly
    updated handler and memory, so non-mutation is a provable fact rather
    than a typing accident.
-/

/-- A pointer into the modelled memory; 0 plays the role of the null pointer. -/
abbrev Addr := Nat

/-- Explicit memory: a fresh-address counter, the live value stored at each
address, and how many times a destructor has run at each address. -/
structure Mem (T : Type) where
  next : Addr
  live : Addr → Option T
  drops : Addr → Nat

/-- Write a value (or clear it, with none) at an address. -/
def Mem.write {T : Type} (m : Mem T) (a : Addr) (v : Option T) : Mem T :=
  { m with live := fun x => if x = a then v else m.live x }

/-- Run the destructor of the value at address a: the value stops being live
and the destructor-run counter at a goes up by one. -/
def Mem.dropValue {T : Type} (m : Mem T) (a : Addr) : Mem T :=
  { m with
    live := fun x => if x = a then none else m.live x
    drops := fun x => if x = a then m.drops x + 1 else m.drops x }

/-- The two implementations of the ValueParam trait in the source:
ref a is the copy-source impl for &T (a is the address of the referenced
value); uniquePtr p is the move-source impl for UniquePtr<T> (p = none is
the null owning pointer, p = some a owns the object at address a). -/
inductive VP (T : Type) : Type where
  | ref (addr : Addr) : VP T
  | uniquePtr (ptr : Option Addr) : VP T
deriving DecidableEq

/-- needs_stack_space: true for the &T impl, false for the UniquePtr impl. -/
def VP.needs_stack_space {T : Type} : VP T → Bool
  | .ref _ => true
  | .uniquePtr _ => false

/-- populate_stack_space: the &T impl copy-constructs the referenced value
into the slot (moveit new copy); the UniquePtr impl is a no-op. -/
def VP.populate_stack_space {T : Type} (p : VP T) (slot : Addr) (m : Mem T) :
    Mem T :=
  match p with
  | .ref src => m.write slot (m.live src)
  | .uniquePtr _ => m

/-- get_ptr of the capability itself. The &T impl returns
std::ptr::null_mut() (address 0). The UniquePtr impl calls
self.as_mut().expect(...): on a null pointer this panics with the source's
message (modelled as Except.error), otherwise it returns the owned address.
The returned VP is the state of self after the &mut call. -/
def VP.get_ptr {T : Type} : VP T → Except String (Addr × VP T)
  | .ref r => .ok (0, .ref r)
  | .uniquePtr none =>
      .error "Passed a NULL UniquePtr as a C++ value parameter"
  | .uniquePtr (some a) => .ok (a, .uniquePtr (some a))

/-- Rust drop glue for the param field: dropping a UniquePtr that still owns
an object runs the destructor of the pointed-to object; dropping a null
UniquePtr or a shared reference does nothing. This is the cxx UniquePtr
destructor, external to value_param.rs but run when the handler is dropped. -/
def VP.drop {T : Type} (p : VP T) (m : Mem T) : Mem T :=
  match p with
  | .ref _ => m
  | .uniquePtr none => m
  | .uniquePtr (some a) => m.dropValue a

/-- ValueParamHandler<T, VP>: the param, and the space field. In the source
space is Option of MaybeUninit of StackStorage; here some slot records both
that the option is occupied and the address at which the slot lives. The
PhantomPinned marker field has no behaviour and is not modelled. -/
structure ValueParamHandler (T : Type) where
  param : VP T
  space : Option Addr
deriving DecidableEq

/-- ValueParamHandler::new. Starts with space = None; if the param needs
stack space it reserves an uninitialized slot (modelled as a fresh address:
the slot lives inside the newly created, pinned handler, disjoint from every
already-allocated object) and calls populate_stack_space on it through
space.as_mut().unwrap() (the unwrap cannot fail since space was just set;
its panic path is still translated). -/
def ValueParamHandler.new {T : Type} (param : VP T) (m : Mem T) :
    Except String (ValueParamHandler T × Mem T) :=
  let this : ValueParamHandler T := { param := param, space := none }
  if this.param.needs_stack_space then
    let slot := m.next
    let this : ValueParamHandler T := { this with space := some slot }
    let m : Mem T := { m with next := m.next + 1 }
    match this.space with
    | some s => .ok (this, this.param.populate_stack_space s m)
    | none => .error "called Option::unwrap() on a None value"
  else
    .ok (this, m)

/-- ValueParamHandler::get_ptr. If space is Some, return the address of the
slot's contents (space.assume_init_mut() as a raw pointer, transmuted from
pointer-to-StackStorage to pointer-to-T: the address is unchanged);
otherwise delegate to self.param.get_ptr(). Takes &mut self, so the updated
handler and memory are returned alongside the pointer. -/
def ValueParamHandler.get_ptr {T : Type} (h : ValueParamHandler T)
    (m : Mem T) : Except String (Addr × ValueParamHandler T × Mem T) :=
  match h.space with
  | some slot => .ok (slot, h, m)
  | none =>
      match h.param.get_ptr with
      | .ok (p, param) => .ok (p, { h with param := param }, m)
      | .error e => .error e

/-- The body of impl Drop for ValueParamHandler: self.space.take() clears
the space field, and if it was occupied the taken value is assumed
initialized and dropped (its destructor runs). -/
def ValueParamHandler.drop {T : Type} (h : ValueParamHandler T) (m : Mem T) :
    ValueParamHandler T × Mem T :=
  let taken := h.space
  let h : ValueParamHandler T := { h with space := none }
  match taken with
  | some slot => (h, m.dropValue slot)
  | none => (h, m)

/-- Full Rust destruction of a handler: the Drop::drop body runs first, then
the drop glue for the fields runs (the param field is dropped). -/
def ValueParamHandler.dropFull {T : Type} (h : ValueParamHandler T)
    (m : Mem T) : Mem T :=
  let r := h.drop m
  r.1.param.drop r.2

/-- A concrete memory over Nat used by witnesses: one address (0) already
allocated and empty. -/
def mem0 : Mem Nat :=
  { next := 1, live := fun _ => none, drops := fun _ => 0 }

/-! Theorems about the embedding. -/

/-- C1: for every move-source (an owning UniquePtr) whose pointer is
non-null, needs_stack_space() is false; a handler built from it delegates
get_ptr to the UniquePtr and returns exactly the stored address; no copy is
made and no storage slot is allocated (memory is returned unchanged and the
space field is none). -/
theorem moveSource_zero_copy (T : Type) (a : Addr) (m : Mem T) :
    (VP.uniquePtr (some a) : VP T).needs_stack_space = false ∧
    ValueParamHandler.new (VP.uniquePtr (some a)) m =
      .ok ({ param := .uniquePtr (some a), space := none }, m) ∧
    ValueParamHandler.get_ptr
      { param := VP.uniquePtr (some a), space := none } m =
      .ok (a, { param := .uniquePtr (some a), space := none }, m) :=
  ⟨rfl, rfl, rfl⟩

/-- C2: for every copy-source (a reference to an existing value, i.e. an
address already allocated: src < m.next), needs_stack_space() is true, and
the handler's get_ptr returns the slot's address, which is non-null (given
that address 0 is already allocated away, 0 < m.next) and differs from the
referenced value's address; the slot really holds a copy of the referenced
value. -/
theorem copySource_fresh_copy (T : Type) (src : Addr) (m : Mem T)
    (h0 : 0 < m.next) (hsrc : src < m.next) :
    (VP.ref src : VP T).needs_stack_space = true ∧
    ∃ hd m', ValueParamHandler.new (VP.ref src) m = .ok (hd, m') ∧
      hd.get_ptr m' = .ok (m.next, hd, m') ∧
      m.next ≠ 0 ∧ m.next ≠ src ∧
      m'.live m.next = m.live src := by
  refine ⟨rfl, _, _, rfl, rfl, Nat.ne_of_gt h0, Nat.ne_of_gt hsrc, ?_⟩
  simp [ValueParamHandler.new, VP.populate_stack_space, Mem.write]

/-- Witness for copySource_fresh_copy at T = Nat, src = 0, m = mem0. -/
theorem copySource_fresh_copy_witness :
    (0 < mem0.next ∧ (0 : Addr) < mem0.next) ∧
    ((VP.ref 0 : VP Nat).needs_stack_space = true ∧
    ∃ hd m', ValueParamHandler.new (VP.ref 0) mem0 = .ok (hd, m') ∧
      hd.get_ptr m' = .ok (mem0.next, hd, m') ∧
      mem0.next ≠ 0 ∧ mem0.next ≠ 0 ∧
      m'.live mem0.next = mem0.live 0) :=
  ⟨⟨by decide, by decide⟩,
   copySource_fresh_copy Nat 0 mem0 (by decide) (by decide)⟩

/-- C3: building a handler from a null move-source succeeds without any
failure (memory untouched, no slot), but a later get_ptr hits the panic in
the UniquePtr impl (Except.error with the source's message): fatal at the
point of use, never a silently returned null. -/
theorem nullMoveSource_fatal (T : Type) (m : Mem T) :
    ValueParamHandler.new (VP.uniquePtr none : VP T) m =
      .ok ({ param := .uniquePtr none, space := none }, m) ∧
    ValueParamHandler.get_ptr
      { param := (VP.uniquePtr none : VP T), space := none } m =
      .error "Passed a NULL UniquePtr as a C++ value parameter" :=
  ⟨rfl, rfl⟩

/-- C4: dropping a handler built from a copy-source destructs the slot's
value exactly once: the drop body clears the space field (never set back),
bumps the destructor count of the slot by exactly one, touches no other
address, and running the drop body again on the result changes nothing, so
no double destruction can occur. -/
theorem copySource_destructor_once (T : Type) (src : Addr) (m : Mem T) :
    ∃ hd m', ValueParamHandler.new (VP.ref src) m = .ok (hd, m') ∧
      hd.space = some m.next ∧
      (hd.drop m').1.space = none ∧
      (hd.drop m').2.drops m.next = m'.drops m.next + 1 ∧
      (∀ a, a ≠ m.next → (hd.drop m').2.drops a = m'.drops a) ∧
      (hd.drop m').1.drop (hd.drop m').2 = hd.drop m' := by
  refine ⟨_, _, rfl, rfl, rfl, ?_, ?_, rfl⟩
  · simp [ValueParamHandler.drop, Mem.dropValue]
  · intro a ha
    simp [ValueParamHandler.drop, Mem.dropValue, ha]

/-- C5: the drop body of a handler built from a move-source is a no-op on
memory: it never runs any destructor, in particular not on the object the
owning pointer points to (the destructor count at every address, including
the pointed-to one, is unchanged; the handler's own drop logic never took
ownership of that object). -/
theorem moveSource_drop_no_destructor (T : Type) (a : Addr)
    (m0 m : Mem T) :
    ∃ hd, ValueParamHandler.new (VP.uniquePtr (some a)) m0 =
        .ok (hd, m0) ∧
      hd.drop m = ({ param := .uniquePtr (some a), space := none }, m) :=
  ⟨_, rfl, rfl⟩

/-- Inversion helper: a successful get_ptr returns the handler and the
memory it was given. Shared by the idempotence and occupancy theorems. -/
theorem ValueParamHandler.get_ptr_ok_inv {T : Type}
    {h : ValueParamHandler T} {m : Mem T} {p : Addr}
    {h' : ValueParamHandler T} {m' : Mem T}
    (hok : h.get_ptr m = .ok (p, h', m')) : h' = h ∧ m' = m := by
  obtain ⟨param, space⟩ := h
  cases space with
  | some slot =>
      simp only [ValueParamHandler.get_ptr, Except.ok.injEq,
        Prod.mk.injEq] at hok
      exact ⟨hok.2.1.symm, hok.2.2.symm⟩
  | none =>
      cases param with
      | ref r =>
          simp only [ValueParamHandler.get_ptr, VP.get_ptr, Except.ok.injEq,
            Prod.mk.injEq] at hok
          exact ⟨hok.2.1.symm, hok.2.2.symm⟩
      | uniquePtr o =>
          cases o with
          | none => simp [ValueParamHandler.get_ptr, VP.get_ptr] at hok
          | some a =>
              simp only [ValueParamHandler.get_ptr, VP.get_ptr,
                Except.ok.injEq, Prod.mk.injEq] at hok
              exact ⟨hok.2.1.symm, hok.2.2.symm⟩

/-- C6: the two-state machine of construction: new always succeeds; the
handler wraps the given param; the slot is occupied (space holds the freshly
reserved address) exactly when the source needs stack space, in which case
memory is the reserved-then-populated one; otherwise the handler remains
Empty and memory is unchanged (no slot allocated or populated). -/
theorem new_state_machine (T : Type) (p : VP T) (m : Mem T) :
    ∃ hd m', ValueParamHandler.new p m = .ok (hd, m') ∧
      hd.param = p ∧
      hd.space = (if p.needs_stack_space then some m.next else none) ∧
      m' = (if p.needs_stack_space then
              p.populate_stack_space m.next { m with next := m.next + 1 }
            else m) := by
  cases p <;> exact ⟨_, _, rfl, rfl, rfl, rfl⟩

/-- C7: get_ptr is idempotent and side-effect-free: whenever it succeeds it
returns the very handler and memory it was given (occupancy, slot contents
and param unchanged), and calling it again returns the same address and
again changes nothing. -/
theorem get_ptr_idempotent (T : Type) (h : ValueParamHandler T) (m : Mem T)
    (p : Addr) (h' : ValueParamHandler T) (m' : Mem T)
    (hok : h.get_ptr m = .ok (p, h', m')) :
    h' = h ∧ m' = m ∧ h'.get_ptr m' = .ok (p, h', m') := by
  obtain ⟨hh, hm⟩ := ValueParamHandler.get_ptr_ok_inv hok
  subst hh; subst hm
  exact ⟨rfl, rfl, hok⟩

/-- Witness for get_ptr_idempotent at a concrete move-source handler. -/
theorem get_ptr_idempotent_witness :
    ValueParamHandler.get_ptr
        { param := VP.uniquePtr (some 0), space := none } mem0 =
      .ok (0, { param := VP.uniquePtr (some 0), space := none }, mem0) ∧
    (({ param := VP.uniquePtr (some 0), space := none } :
        ValueParamHandler Nat) =
          { param := VP.uniquePtr (some 0), space := none } ∧
      mem0 = mem0 ∧
      ValueParamHandler.get_ptr
          { param := VP.uniquePtr (some 0), space := none } mem0 =
        .ok (0, { param := VP.uniquePtr (some 0), space := none }, mem0)) :=
  ⟨rfl, get_ptr_idempotent Nat
    { param := VP.uniquePtr (some 0), space := none } mem0 0
    { param := VP.uniquePtr (some 0), space := none } mem0 rfl⟩

/-- C9: get_ptr on a move-source handler does not release ownership: it
returns the handler unchanged, the param field still holds the non-null
owning pointer, and full destruction (the drop body followed by the drop
glue of the param field) runs the UniquePtr field's own destructor on the
pointed-to object exactly once and touches no other address. -/
theorem moveSource_dropFull_owner_destructs (T : Type) (a : Addr)
    (m0 m : Mem T) :
    ∃ hd, ValueParamHandler.new (VP.uniquePtr (some a)) m0 =
        .ok (hd, m0) ∧
      hd.get_ptr m = .ok (a, hd, m) ∧
      hd.param = .uniquePtr (some a) ∧
      (hd.dropFull m).drops a = m.drops a + 1 ∧
      (∀ x, x ≠ a → (hd.dropFull m).drops x = m.drops x) := by
  refine ⟨_, rfl, rfl, rfl, ?_, ?_⟩
  · simp [ValueParamHandler.dropFull, ValueParamHandler.drop, VP.drop,
      Mem.dropValue]
  · intro x hx
    simp [ValueParamHandler.dropFull, ValueParamHandler.drop, VP.drop,
      Mem.dropValue, hx]

/-- C10: after construction the slot is occupied exactly when the wrapped
source needs stack space, and every successful get_ptr preserves this; a
copy-source handler's get_ptr always takes the slot branch, returning the
slot's address, which is non-null (0 being already allocated away), never
the null pointer the delegate branch (the &T impl's get_ptr) would give. -/
theorem occupied_iff_needs_stack_space (T : Type) (p : VP T) (src : Addr)
    (m : Mem T) (h0 : 0 < m.next) :
    (∃ hd m', ValueParamHandler.new p m = .ok (hd, m') ∧
      hd.space.isSome = p.needs_stack_space ∧
      ∀ mq r hd' mq', hd.get_ptr mq = .ok (r, hd', mq') →
        hd'.space.isSome = p.needs_stack_space) ∧
    (∃ hd m', ValueParamHandler.new (VP.ref src) m = .ok (hd, m') ∧
      ∀ mq, hd.get_ptr mq = .ok (m.next, hd, mq) ∧ m.next ≠ 0) := by
  constructor
  · cases p with
    | ref r =>
        refine ⟨_, _, rfl, rfl, ?_⟩
        intro mq r' hd' mq' hok
        rw [(ValueParamHandler.get_ptr_ok_inv hok).1]
        rfl
    | uniquePtr o =>
        refine ⟨_, _, rfl, rfl, ?_⟩
        intro mq r' hd' mq' hok
        rw [(ValueParamHandler.get_ptr_ok_inv hok).1]
        rfl
  · exact ⟨_, _, rfl, fun mq => ⟨rfl, Nat.ne_of_gt h0⟩⟩

/-- Witness for occupied_iff_needs_stack_space at T = Nat with a concrete
move-source param, src = 0 and m = mem0. -/
theorem occupied_iff_needs_stack_space_witness :
    0 < mem0.next ∧
    ((∃ hd m', ValueParamHandler.new (VP.uniquePtr (some 0)) mem0 =
        .ok (hd, m') ∧
      hd.space.isSome = (VP.uniquePtr (some 0) : VP Nat).needs_stack_space ∧
      ∀ mq r hd' mq', hd.get_ptr mq = .ok (r, hd', mq') →
        hd'.space.isSome =
          (VP.uniquePtr (some 0) : VP Nat).needs_stack_space) ∧
    (∃ hd m', ValueParamHandler.new (VP.ref 0) mem0 = .ok (hd, m') ∧
      ∀ mq, hd.get_ptr mq = .ok (mem0.next, hd, mq) ∧ mem0.next ≠ 0)) :=
  ⟨by decide,
   occupied_iff_needs_stack_space Nat (VP.uniquePtr (some 0)) 0 mem0
     (by decide)⟩
